import Mathlib

/-!
# Verification of the 5G OA&M Automation and Monitoring platform

A shallow embedding of the telemetry and correlation engine of the
platform: the alarm lifecycle manager (`oam.py`), the KPI rolling-window
aggregator with threshold evaluation (`kpi.py`), and the scenario-driven
event orchestrator with its load-test command (`event.py`), together with
the top-level controller (`platform.py`).

Modelling conventions:
* Python dicts keyed by identifiers become insertion-ordered association
  lists; `d[k] = v` replaces the first binding of `k` in place (or appends
  a fresh binding), exactly as a Python dict keeps key positions.
* Python floats become exact rationals.
* The random source (`random.random`, `random.uniform`, `random.randint`,
  `random.choice`) and the wall clock (`datetime.now().isoformat()`) are
  modelled by a `World`: a stream of draws in `[0,1)` and a stream of
  timestamp strings, consumed in the order the source code reads them;
  an exhausted stream yields `0` / `""`.
* `time.sleep` calls are recorded as a list of requested durations.
-/

namespace OAM5G

/-! ## Association-list primitives (Python `dict` semantics) -/

section Dict

variable {κ : Type} {β : Type} [DecidableEq κ]

/-- First binding of key `k`, like a Python `dict` lookup (`k in d` / `d[k]`). -/
def lookup1 : List (κ × β) → κ → Option β
  | [], _ => none
  | p :: rest, k => if p.1 = k then some p.2 else lookup1 rest k

/-- `d[k] = v`: replace the first binding of `k` in place, else append a fresh one. -/
def dictSet : List (κ × β) → κ → β → List (κ × β)
  | [], k, v => [(k, v)]
  | p :: rest, k, v => if p.1 = k then (k, v) :: rest else p :: dictSet rest k v

/-- In-place update of the first binding of `k`; no-op when `k` is absent. -/
def update1 : List (κ × β) → κ → (β → β) → List (κ × β)
  | [], _, _ => []
  | p :: rest, k, f => if p.1 = k then (k, f p.2) :: rest else p :: update1 rest k f

/-- `defaultdict` access-and-update: update the first binding of `k`,
appending `(k, f d)` when `k` is absent (`d` the default value). -/
def upsert1 : List (κ × β) → κ → (β → β) → β → List (κ × β)
  | [], k, f, d => [(k, f d)]
  | p :: rest, k, f, d => if p.1 = k then (k, f p.2) :: rest else p :: upsert1 rest k f d

theorem lookup1_dictSet_self (l : List (κ × β)) (k : κ) (v : β) :
    lookup1 (dictSet l k v) k = some v := by
  induction l with
  | nil => simp [dictSet, lookup1]
  | cons p rest ih =>
      by_cases h : p.1 = k
      · simp [dictSet, h, lookup1]
      · simp [dictSet, h, lookup1, ih]

theorem lookup1_dictSet_ne (l : List (κ × β)) (k k' : κ) (v : β) (h : k' ≠ k) :
    lookup1 (dictSet l k v) k' = lookup1 l k' := by
  induction l with
  | nil => simp [dictSet, lookup1, Ne.symm h]
  | cons p rest ih =>
      by_cases hp : p.1 = k
      · simp [dictSet, hp, lookup1, Ne.symm h]
      · simp [dictSet, hp, lookup1, ih]

theorem mem_dictSet (l : List (κ × β)) (k : κ) (v : β) :
    ∀ p ∈ dictSet l k v, p ∈ l ∨ p = (k, v) := by
  induction l with
  | nil => simp [dictSet]
  | cons q rest ih =>
      intro p hp
      by_cases h : q.1 = k
      · rw [dictSet, if_pos h, List.mem_cons] at hp
        rcases hp with h1 | h1
        · exact Or.inr h1
        · exact Or.inl (List.mem_cons_of_mem _ h1)
      · rw [dictSet, if_neg h, List.mem_cons] at hp
        rcases hp with h1 | h1
        · exact Or.inl (by simp [h1])
        · rcases ih p h1 with h2 | h2
          · exact Or.inl (List.mem_cons_of_mem _ h2)
          · exact Or.inr h2

theorem lookup1_mem (l : List (κ × β)) (k : κ) (v : β)
    (h : lookup1 l k = some v) : (k, v) ∈ l := by
  induction l with
  | nil => simp [lookup1] at h
  | cons p rest ih =>
      by_cases hp : p.1 = k
      · rw [lookup1, if_pos hp, Option.some.injEq] at h
        have hkv : (k, v) = p := by
          rw [← hp, ← h]
        exact hkv ▸ List.mem_cons_self p rest
      · rw [lookup1, if_neg hp] at h
        exact List.mem_cons_of_mem _ (ih h)

theorem length_dictSet_of_found (l : List (κ × β)) (k : κ) (v v' : β)
    (h : lookup1 l k = some v') : (dictSet l k v).length = l.length := by
  induction l with
  | nil => simp [lookup1] at h
  | cons p rest ih =>
      by_cases hp : p.1 = k
      · simp [dictSet, hp]
      · rw [lookup1, if_neg hp] at h
        simp [dictSet, hp, ih h]

theorem lookup1_update1_self (l : List (κ × β)) (k : κ) (f : β → β) :
    lookup1 (update1 l k f) k = (lookup1 l k).map f := by
  induction l with
  | nil => simp [update1, lookup1]
  | cons p rest ih =>
      by_cases hp : p.1 = k
      · simp [update1, hp, lookup1]
      · simp [update1, hp, lookup1, ih]

theorem lookup1_update1_ne (l : List (κ × β)) (k k' : κ) (f : β → β) (h : k' ≠ k) :
    lookup1 (update1 l k f) k' = lookup1 l k' := by
  induction l with
  | nil => simp [update1]
  | cons p rest ih =>
      by_cases hp : p.1 = k
      · simp [update1, hp, lookup1, Ne.symm h]
      · simp [update1, hp, lookup1, ih]

theorem lookup1_upsert1_self (l : List (κ × β)) (k : κ) (f : β → β) (d : β) :
    lookup1 (upsert1 l k f d) k = some (f ((lookup1 l k).getD d)) := by
  induction l with
  | nil => simp [upsert1, lookup1]
  | cons p rest ih =>
      by_cases hp : p.1 = k
      · simp [upsert1, hp, lookup1]
      · simp [upsert1, hp, lookup1, ih]

end Dict

/-! ## Random source and wall clock -/

/-- The ambient effect sources of the Python code: a stream of
`random.random()` draws (rationals in `[0,1)`) and a stream of
`datetime.now().isoformat()` timestamps. -/
structure World where
  rng : List ℚ
  clock : List String
deriving Repr, DecidableEq

/-- `random.random()`. -/
def World.rand : World → ℚ × World
  | ⟨[], c⟩ => (0, ⟨[], c⟩)
  | ⟨x :: xs, c⟩ => (x, ⟨xs, c⟩)

/-- `random.uniform(a, b)`, derived from one base draw. -/
def World.uniform (w : World) (a b : ℚ) : ℚ × World :=
  let (x, w) := w.rand
  (a + x * (b - a), w)

/-- `random.randint(a, b)` (inclusive bounds), derived from one base draw. -/
def World.randint (w : World) (a b : ℤ) : ℤ × World :=
  let (x, w) := w.rand
  (a + ⌊x * ((b : ℚ) - (a : ℚ) + 1)⌋, w)

/-- `random.choice(l)`, derived from one base draw (`d` is irrelevant when
`l` is non-empty, as at every call site). -/
def World.choice {α : Type} (w : World) (l : List α) (d : α) : α × World :=
  let (x, w) := w.rand
  (l.getD (⌊x * (l.length : ℚ)⌋).toNat d, w)

/-- `datetime.now().isoformat()`. -/
def World.now : World → String × World
  | ⟨r, []⟩ => ("", ⟨r, []⟩)
  | ⟨r, t :: ts⟩ => (t, ⟨r, ts⟩)

/-! ## Network nodes -/

/-- A node record `{"id": ..., "type": ..., "ip": ..., "status": ...}`. -/
structure Node where
  id : String
  ty : String
  ip : String
  status : String
deriving Repr, DecidableEq

/-- The node list built in `OAMAutomation.__init__`, `KPIMonitoring.__init__`
and `EventSimulator.__init__` (each module constructs its own copy of this
literal). -/
def initialNodes : List Node :=
  [⟨"gnb-001", "gNB", "10.0.1.1", "active"⟩,
   ⟨"gnb-002", "gNB", "10.0.1.2", "active"⟩,
   ⟨"amf-001", "AMF", "10.0.2.1", "active"⟩,
   ⟨"smf-001", "SMF", "10.0.2.2", "active"⟩,
   ⟨"upf-001", "UPF", "10.0.3.1", "active"⟩,
   ⟨"pcf-001", "PCF", "10.0.3.2", "active"⟩]

/-! ## OAM automation module (`oam.py`) -/

/-- `AlarmSeverity` enum. -/
inductive AlarmSeverity
  | CRITICAL | MAJOR | MINOR | WARNING | INDETERMINATE | CLEARED
deriving Repr, DecidableEq

/-- `severity.name`. -/
def AlarmSeverity.name : AlarmSeverity → String
  | .CRITICAL => "CRITICAL"
  | .MAJOR => "MAJOR"
  | .MINOR => "MINOR"
  | .WARNING => "WARNING"
  | .INDETERMINATE => "INDETERMINATE"
  | .CLEARED => "CLEARED"

/-- `AlarmType` enum. -/
inductive AlarmType
  | COMMUNICATIONS | QUALITY_OF_SERVICE | PROCESSING_ERROR
  | EQUIPMENT | ENVIRONMENTAL | SECURITY
deriving Repr, DecidableEq

/-- `alarm_type.name`. -/
def AlarmType.name : AlarmType → String
  | .COMMUNICATIONS => "COMMUNICATIONS"
  | .QUALITY_OF_SERVICE => "QUALITY_OF_SERVICE"
  | .PROCESSING_ERROR => "PROCESSING_ERROR"
  | .EQUIPMENT => "EQUIPMENT"
  | .ENVIRONMENTAL => "ENVIRONMENTAL"
  | .SECURITY => "SECURITY"

/-- The alarm record built in `OAMAutomation._create_alarm`. -/
structure Alarm where
  id : Nat
  node_id : String
  ty : String
  severity : String
  description : String
  raised_time : String
  status : String
  cleared_time : Option String := none
deriving Repr, DecidableEq

/-- Mutable state of `OAMAutomation`. -/
structure OAMState where
  running : Bool := false
  alarms : List (Nat × Alarm)
  alarm_id_counter : Nat
  network_nodes : List Node
deriving Repr, DecidableEq

/-- `OAMAutomation.__init__`. -/
def OAMState.init : OAMState :=
  { running := false, alarms := [], alarm_id_counter := 1, network_nodes := initialNodes }

/-- `OAMAutomation._create_alarm`. -/
def OAMState.create_alarm (s : OAMState) (w : World) (node_id : String)
    (alarm_type : AlarmType) (severity : AlarmSeverity) (description : String) :
    Nat × OAMState × World :=
  let alarm_id := s.alarm_id_counter
  let (now, w) := w.now
  let alarm : Alarm :=
    { id := alarm_id, node_id := node_id, ty := alarm_type.name,
      severity := severity.name, description := description,
      raised_time := now, status := "active", cleared_time := none }
  (alarm_id,
   { s with alarm_id_counter := s.alarm_id_counter + 1,
            alarms := dictSet s.alarms alarm_id alarm }, w)

/-- `OAMAutomation._clear_alarm`. -/
def OAMState.clear_alarm (s : OAMState) (w : World) (alarm_id : Nat) :
    Bool × OAMState × World :=
  match lookup1 s.alarms alarm_id with
  | some alarm =>
      let (now, w) := w.now
      let alarm' := { alarm with status := "cleared", cleared_time := some now }
      (true, { s with alarms := dictSet s.alarms alarm_id alarm' }, w)
  | none => (false, s, w)

/-- The result record of `OAMAutomation.get_status`. -/
structure OAMStatus where
  status : String
  active_alarms : Nat
  network_nodes : Nat
  healthy_nodes : Nat
deriving Repr, DecidableEq

/-- `OAMAutomation.get_status`. -/
def OAMState.get_status (s : OAMState) : OAMStatus :=
  { status := if s.running then "running" else "stopped",
    active_alarms := s.alarms.length,
    network_nodes := s.network_nodes.length,
    healthy_nodes := (s.network_nodes.filter (fun node => node.status = "active")).length }

/-- The description string `f"Node {node['id']} is down"`. -/
def nodeDownMsg (node_id : String) : String :=
  "Node " ++ node_id ++ " is down"

/-- One iteration of the snapshot loop
`for alarm_id, alarm in list(self.alarms.items())` of the recovery branch
of `_fault_generation_loop`: `_clear_alarm(alarm_id)` when the snapshot
entry matches `(node_id, "Node {id} is down")`. -/
def clearMatchingStep (nodeId : String) (acc : OAMState × World) (p : Nat × Alarm) :
    OAMState × World :=
  if p.2.node_id = nodeId ∧ p.2.description = nodeDownMsg nodeId then
    let r := acc.1.clear_alarm acc.2 p.1
    (r.2.1, r.2.2)
  else acc

/-- The recovery branch of `OAMAutomation._fault_generation_loop`
(lines 104-109) for one down node whose 30% recovery trial succeeded:
flip the node back to active, then clear every alarm of that node whose
description equals the literal node-down string, via `_clear_alarm`. -/
def OAMState.recover_node (s : OAMState) (w : World) (node : Node) : OAMState × World :=
  let nodes :=
    s.network_nodes.map
      (fun (n : Node) => if n.id = node.id then { n with status := "active" } else n)
  let s := { s with network_nodes := nodes }
  s.alarms.foldl (clearMatchingStep node.id) (s, w)

/-- The `node_down` branch of `OAMAutomation._fault_generation_loop`
(lines 92-94) for one node whose fault trial succeeded: flip the node to
down and raise a CRITICAL EQUIPMENT alarm. -/
def OAMState.fault_node_down (s : OAMState) (w : World) (node : Node) : OAMState × World :=
  let nodes :=
    s.network_nodes.map
      (fun (n : Node) => if n.id = node.id then { n with status := "down" } else n)
  let s := { s with network_nodes := nodes }
  let r := s.create_alarm w node.id .EQUIPMENT .CRITICAL (nodeDownMsg node.id)
  (r.2.1, r.2.2)

/-! ## KPI monitoring module (`kpi.py`) -/

/-- One entry of `KPIMonitoring.kpi_definitions`. -/
structure KPIDef where
  id : String
  name : String
  description : String
  unit : String
  target : ℚ
  warning_threshold : ℚ
  critical_threshold : ℚ
  category : String
deriving Repr, DecidableEq

/-- `KPIMonitoring.kpi_definitions` (static, loaded once in `__init__`). -/
def kpi_definitions : List KPIDef :=
  [⟨"node_availability", "Node Availability", "Percentage of time a node is available",
    "%", 99.99, 99.9, 99.5, "availability"⟩,
   ⟨"service_latency", "Service Latency", "Average latency for service requests",
    "ms", 50, 100, 200, "performance"⟩,
   ⟨"error_rate", "Error Rate", "Percentage of requests resulting in errors",
    "%", 0.1, 1.0, 5.0, "quality"⟩,
   ⟨"cpu_utilization", "CPU Utilization", "Average CPU utilization of nodes",
    "%", 60, 80, 90, "resource"⟩,
   ⟨"memory_utilization", "Memory Utilization", "Average memory utilization of nodes",
    "%", 70, 85, 95, "resource"⟩,
   ⟨"throughput", "Network Throughput", "Average network throughput",
    "Mbps", 1000, 500, 100, "performance"⟩,
   ⟨"connection_success_rate", "Connection Success Rate",
    "Percentage of successful connection attempts", "%", 99.9, 99.0, 95.0, "quality"⟩,
   ⟨"recovery_time", "Recovery Time", "Average time to recover from failures",
    "seconds", 30, 60, 300, "availability"⟩]

/-- One data point `{"timestamp": ..., "value": ...}`. -/
structure Sample where
  timestamp : String
  value : ℚ
deriving Repr, DecidableEq

/-- `deque(maxlen=1000).append`: append at the right, evicting from the left
once the window exceeds capacity 1000. -/
def windowAppend (w : List Sample) (x : Sample) : List Sample :=
  let w' := w ++ [x]
  if 1000 < w'.length then w'.drop (w'.length - 1000) else w'

/-- Mutable state of `KPIMonitoring`.  `kpi_data` is the dict
`{kpi_id: defaultdict(node_id: deque)}`, outer keys created at `__init__`. -/
structure KPIState where
  running : Bool := false
  kpi_data : List (String × List (String × List Sample))
  network_nodes : List Node
deriving Repr, DecidableEq

/-- `KPIMonitoring.__init__`. -/
def KPIState.init : KPIState :=
  { running := false,
    kpi_data := kpi_definitions.map (fun kpi => (kpi.id, [])),
    network_nodes := initialNodes }

/-- `self.kpi_data[kpi_id][node_id].append(x)`: the outer key exists for every
defined KPI; the inner `defaultdict` creates a fresh window on first access. -/
def KPIState.appendSample (s : KPIState) (kpi_id node_id : String) (x : Sample) : KPIState :=
  let data :=
    update1 s.kpi_data kpi_id
      (fun nd => upsert1 nd node_id (fun win => windowAppend win x) [])
  { s with kpi_data := data }

/-- `KPIMonitoring._collect_node_kpis`. -/
def KPIState.collect_node_kpis (s : KPIState) (w : World) (node : Node) : KPIState × World :=
  let node_id := node.id
  let (timestamp, w) := w.now
  let availability : ℚ := if node.status = "active" then 100.0 else 0.0
  let s := s.appendSample "node_availability" node_id ⟨timestamp, availability⟩
  let (cpu_util, w) := w.uniform 20 95
  let s := s.appendSample "cpu_utilization" node_id ⟨timestamp, cpu_util⟩
  let (memory_util, w) := w.uniform 30 90
  let s := s.appendSample "memory_utilization" node_id ⟨timestamp, memory_util⟩
  let (latency, w) := w.uniform 10 200
  let s := s.appendSample "service_latency" node_id ⟨timestamp, latency⟩
  let (error_rate, w) := w.uniform 0 10
  let s := s.appendSample "error_rate" node_id ⟨timestamp, error_rate⟩
  let (throughput, w) := w.uniform 100 2000
  let s := s.appendSample "throughput" node_id ⟨timestamp, throughput⟩
  let (success_rate, w) := w.uniform 90 100
  let s := s.appendSample "connection_success_rate" node_id ⟨timestamp, success_rate⟩
  if node.status = "active" then
    let (x, w) := w.rand
    if x < 1/10 then
      let (recovery_time, w) := w.uniform 10 500
      (s.appendSample "recovery_time" node_id ⟨timestamp, recovery_time⟩, w)
    else (s, w)
  else (s, w)

/-- The severity classification inlined in `KPIMonitoring._analyze_kpi_data`
(kpi.py lines 92-105). -/
def classify_severity (category : String) (warning_threshold critical_threshold value : ℚ) :
    String :=
  if category = "availability" ∨ category = "quality" then
    if value < critical_threshold then "CRITICAL"
    else if value < warning_threshold then "WARNING"
    else "OK"
  else
    if critical_threshold < value then "CRITICAL"
    else if warning_threshold < value then "WARNING"
    else "OK"

/-- One entry of the issue list built by `_analyze_kpi_data`. -/
structure Issue where
  node_id : String
  kpi_id : String
  kpi_name : String
  value : ℚ
  unit : String
  severity : String
  timestamp : String
deriving Repr, DecidableEq

/-- The inner loop of `_analyze_kpi_data` over the node windows of one KPI. -/
def analyzeNodes (kpi : KPIDef) (node_data : List (String × List Sample))
    (issues : List Issue) : List Issue :=
  node_data.foldl
    (fun (issues : List Issue) (p : String × List Sample) =>
      match p.2.getLast? with
      | none => issues
      | some latest =>
          let severity :=
            classify_severity kpi.category kpi.warning_threshold kpi.critical_threshold
              latest.value
          if severity ≠ "OK" then
            issues ++ [⟨p.1, kpi.id, kpi.name, latest.value, kpi.unit, severity,
                        latest.timestamp⟩]
          else issues)
    issues

/-- The outer loop of `_analyze_kpi_data` over the KPI definitions. -/
def analyzeAll (data : List (String × List (String × List Sample)))
    (defs : List KPIDef) (issues : List Issue) : List Issue :=
  defs.foldl
    (fun (issues : List Issue) (kpi : KPIDef) =>
      match lookup1 data kpi.id with
      | none => issues
      | some node_data => analyzeNodes kpi node_data issues)
    issues

/-- `KPIMonitoring._analyze_kpi_data`: classify the latest sample of every
(KPI, node) window and return the non-OK results. -/
def KPIState.analyze_kpi_data (s : KPIState) : List Issue :=
  analyzeAll s.kpi_data kpi_definitions []

/-- `KPIMonitoring.get_kpi_data`.  The `time_range` argument is modelled by
the pre-computed cutoff string `(datetime.now() - timedelta(seconds=time_range)).isoformat()`;
the record filter compares timestamp strings with `>=`. -/
def KPIState.get_kpi_data (s : KPIState) (kpi_id? node_id? cutoff? : Option String) :
    List (String × List (String × List Sample)) :=
  let kpi_data :=
    match kpi_id? with
    | some k =>
        match lookup1 s.kpi_data k with
        | none => []
        | some nd => [(k, nd)]
    | none => s.kpi_data
  kpi_data.map
    (fun (q : String × List (String × List Sample)) =>
      let filtered_node_data :=
        match node_id? with
        | some n =>
            match lookup1 q.2 n with
            | none => []
            | some dps => [(n, dps)]
        | none => q.2
      (q.1,
       filtered_node_data.foldr
         (fun (p : String × List Sample) acc =>
           let filtered :=
             match cutoff? with
             | some cutoff => p.2.filter (fun dp => decide (cutoff ≤ dp.timestamp))
             | none => p.2
           if filtered ≠ [] then (p.1, filtered) :: acc else acc)
         []))

/-! ## Event simulation module (`event.py`) -/

/-- `EventType` enum. -/
inductive EventType
  | NODE_FAILURE | SERVICE_FAILURE | NETWORK_CONGESTION | SECURITY_BREACH
  | RESOURCE_EXHAUSTION | CONFIGURATION_CHANGE | FAILOVER | RECOVERY
deriving Repr, DecidableEq

/-- `event_type.name`. -/
def EventType.name : EventType → String
  | .NODE_FAILURE => "NODE_FAILURE"
  | .SERVICE_FAILURE => "SERVICE_FAILURE"
  | .NETWORK_CONGESTION => "NETWORK_CONGESTION"
  | .SECURITY_BREACH => "SECURITY_BREACH"
  | .RESOURCE_EXHAUSTION => "RESOURCE_EXHAUSTION"
  | .CONFIGURATION_CHANGE => "CONFIGURATION_CHANGE"
  | .FAILOVER => "FAILOVER"
  | .RECOVERY => "RECOVERY"

/-- `list(EventType)` in declaration order. -/
def EventType.all : List EventType :=
  [.NODE_FAILURE, .SERVICE_FAILURE, .NETWORK_CONGESTION, .SECURITY_BREACH,
   .RESOURCE_EXHAUSTION, .CONFIGURATION_CHANGE, .FAILOVER, .RECOVERY]

/-- A JSON-like value stored in an event's `details` dict. -/
inductive Val
  | s (v : String)
  | i (v : ℤ)
  | q (v : ℚ)
  | b (v : Bool)
  | d (v : List (String × Val))
deriving Repr, BEq

/-- An event record.  `_generate_event` events carry a `target_node` key;
the two load-test events instead carry a `target_nodes` list. -/
structure Event where
  id : Nat
  ty : String
  target_node : Option String := none
  target_type : String
  timestamp : String
  details : List (String × Val)
  target_nodes : List String := []
deriving Repr, BEq

/-- One entry of a scenario's `events` list. -/
structure EventSpec where
  ty : EventType
  target_type : String
  probability : ℚ
deriving Repr, DecidableEq

/-- A scenario from `EventSimulator.scenarios`. -/
structure Scenario where
  name : String
  description : String
  events : List EventSpec
deriving Repr, DecidableEq

/-- `EventSimulator.scenarios` (static catalog built in `__init__`). -/
def scenarios : List Scenario :=
  [⟨"AMF Failover", "Simulate AMF node failure and failover to backup",
    [⟨.NODE_FAILURE, "AMF", 1.0⟩, ⟨.FAILOVER, "AMF", 0.9⟩, ⟨.RECOVERY, "AMF", 0.8⟩]⟩,
   ⟨"Network Congestion", "Simulate network congestion affecting multiple nodes",
    [⟨.NETWORK_CONGESTION, "ALL", 1.0⟩, ⟨.SERVICE_FAILURE, "UPF", 0.7⟩,
     ⟨.RECOVERY, "ALL", 0.9⟩]⟩,
   ⟨"Resource Exhaustion", "Simulate resource exhaustion on a node",
    [⟨.RESOURCE_EXHAUSTION, "SMF", 1.0⟩, ⟨.SERVICE_FAILURE, "SMF", 0.8⟩,
     ⟨.RECOVERY, "SMF", 0.9⟩]⟩,
   ⟨"Security Incident", "Simulate a security breach and response",
    [⟨.SECURITY_BREACH, "PCF", 1.0⟩, ⟨.CONFIGURATION_CHANGE, "PCF", 0.9⟩,
     ⟨.RECOVERY, "PCF", 0.95⟩]⟩,
   ⟨"Multiple Node Failure", "Simulate multiple node failures and recovery",
    [⟨.NODE_FAILURE, "gNB", 1.0⟩, ⟨.NODE_FAILURE, "UPF", 0.8⟩, ⟨.FAILOVER, "gNB", 0.9⟩,
     ⟨.FAILOVER, "UPF", 0.7⟩, ⟨.RECOVERY, "gNB", 0.95⟩, ⟨.RECOVERY, "UPF", 0.9⟩]⟩]

/-- Mutable state of `EventSimulator`. -/
structure EvState where
  running : Bool := false
  events : List Event
  network_nodes : List Node
deriving Repr, BEq

/-- `EventSimulator.__init__`. -/
def EvState.init : EvState :=
  { running := false, events := [], network_nodes := initialNodes }

/-- A placeholder node for the unreachable empty-list branch of `random.choice`. -/
def Node.dummy : Node := ⟨"", "", "", ""⟩

/-- `EventSimulator._generate_event`: build the type-specific `details`
payload (consuming random draws in source order), apply the node-status
side effect (down on `NODE_FAILURE`, active on successful `RECOVERY`),
and append the event with id `len(self.events) + 1`. -/
def EvState.generate_event (st : EvState) (w : World) (event_type : EventType)
    (target_node : Node) : EvState × World × Event :=
  let event_id := st.events.length + 1
  let (timestamp, w) := w.now
  let r :=
    match event_type with
    | .NODE_FAILURE =>
        let (fr, w) := w.choice ["Hardware failure", "Software crash", "Power outage",
                                 "Network connectivity loss"] ""
        let (sv, w) := w.choice ["Critical", "Major", "Minor"] ""
        (([("failure_reason", Val.s fr), ("severity", Val.s sv)],
          some "down"), w)
    | .SERVICE_FAILURE =>
        let (sn, w) := w.choice ["Authentication", "Session Management", "Policy Control",
                                 "User Plane"] ""
        let (fr, w) := w.choice ["Timeout", "Internal error", "Dependency failure",
                                 "Resource constraint"] ""
        let (au, w) := w.randint 10 1000
        (([("service_name", Val.s sn), ("failure_reason", Val.s fr),
           ("affected_users", Val.i au)], none), w)
    | .NETWORK_CONGESTION =>
        let (cl, w) := w.uniform 70 100
        let (ai, w) := w.choice ["N1", "N2", "N3", "N4", "N6", "All"] ""
        let (ds, w) := w.randint 30 300
        (([("congestion_level", Val.q cl), ("affected_interfaces", Val.s ai),
           ("duration_seconds", Val.i ds)], none), w)
    | .SECURITY_BREACH =>
        let (bt, w) := w.choice ["Unauthorized access", "Authentication bypass",
                                 "DDoS attack", "Data exfiltration"] ""
        let (sv, w) := w.choice ["Critical", "Major", "Minor"] ""
        let (sy, w) := w.randint 1 5
        (([("breach_type", Val.s bt), ("severity", Val.s sv),
           ("affected_systems", Val.i sy)], none), w)
    | .RESOURCE_EXHAUSTION =>
        let (rt, w) := w.choice ["CPU", "Memory", "Disk", "Network bandwidth",
                                 "Connection pool"] ""
        let (ut, w) := w.uniform 90 100
        let (ac, w) := w.uniform 0 10
        (([("resource_type", Val.s rt), ("utilization", Val.q ut),
           ("available_capacity", Val.q ac)], none), w)
    | .CONFIGURATION_CHANGE =>
        let (ct, w) := w.choice ["Parameter update", "Software upgrade", "Policy change",
                                 "Security hardening"] ""
        let (cr, w) := w.choice ["Planned maintenance", "Performance optimization",
                                 "Security patch", "Bug fix"] ""
        let (ci, w) := w.randint 1000 9999
        (([("change_type", Val.s ct), ("change_reason", Val.s cr),
           ("change_id", Val.s ("CHG-" ++ toString ci))], none), w)
    | .FAILOVER =>
        let (ft, w) := w.choice ["Automatic", "Manual", "Scheduled"] ""
        let (fd, w) := w.randint 5 60
        (([("failover_target", Val.s (target_node.ty ++ "-BACKUP")),
           ("failover_type", Val.s ft), ("failover_duration_seconds", Val.i fd)],
          none), w)
    | .RECOVERY =>
        let (ra, w) := w.choice ["Restart", "Failback", "Reconfiguration",
                                 "Manual intervention"] ""
        let (rd, w) := w.randint 10 300
        let (x, w) := w.rand
        let success := decide (x < 9/10)
        (([("recovery_action", Val.s ra), ("recovery_duration_seconds", Val.i rd),
           ("success", Val.b success)],
          if success then some "active" else none), w)
  let details := r.1.1
  let newStatus := r.1.2
  let w := r.2
  let ev : Event :=
    { id := event_id, ty := event_type.name, target_node := some target_node.id,
      target_type := target_node.ty, timestamp := timestamp, details := details,
      target_nodes := [] }
  let nodes :=
    match newStatus with
    | some stat =>
        st.network_nodes.map
          (fun (n : Node) => if n.id = target_node.id then { n with status := stat } else n)
    | none => st.network_nodes
  ({ st with network_nodes := nodes, events := st.events ++ [ev] }, w, ev)

/-- The loop body of `EventSimulator._run_scenario` over a given spec list:
per spec an independent probability trial (`random.random() > probability`
skips), target resolution (empty set skips), uniform target choice, event
generation, and a recorded pacing sleep of `random.uniform(1, 5)` seconds. -/
def EvState.run_scenario_events (st : EvState) (w : World) (specs : List EventSpec) :
    EvState × World × List ℚ :=
  match specs with
  | [] => (st, w, [])
  | event_def :: rest =>
      let r := w.rand
      if event_def.probability < r.1 then
        st.run_scenario_events r.2 rest
      else
        let target_nodes :=
          if event_def.target_type = "ALL" then st.network_nodes
          else st.network_nodes.filter (fun n => n.ty = event_def.target_type)
        if target_nodes = [] then
          st.run_scenario_events r.2 rest
        else
          let c := r.2.choice target_nodes Node.dummy
          let g := st.generate_event c.2 event_def.ty c.1
          let u := g.2.1.uniform 1 5
          let rec_ := g.1.run_scenario_events u.2 rest
          (rec_.1, rec_.2.1, u.1 :: rec_.2.2)

/-- `EventSimulator._run_scenario`: uniformly choose a scenario, then run
its spec list in order. -/
def EvState.run_scenario (st : EvState) (w : World) : EvState × World × List ℚ :=
  let (scenario, w) := w.choice scenarios ⟨"", "", []⟩
  st.run_scenario_events w scenario.events

/-- The body of the `for _ in range(num_events)` loop of
`EventSimulator._generate_random_events`. -/
def EvState.random_events_loop : Nat → EvState → World → EvState × World × List ℚ
  | 0, st, w => (st, w, [])
  | n + 1, st, w =>
      let c1 := w.choice EventType.all .NODE_FAILURE
      let c2 := c1.2.choice st.network_nodes Node.dummy
      let g := st.generate_event c2.2 c1.1 c2.1
      let u := g.2.1.uniform 1 3
      let rec_ := EvState.random_events_loop n g.1 u.2
      (rec_.1, rec_.2.1, u.1 :: rec_.2.2)

/-- `EventSimulator._generate_random_events`: 1-3 fully random events. -/
def EvState.generate_random_events (st : EvState) (w : World) : EvState × World × List ℚ :=
  let r := w.randint 1 3
  EvState.random_events_loop r.1.toNat st r.2

/-- `EventSimulator.get_events`.  As in `get_kpi_data`, the `time_range`
argument is modelled by the pre-computed cutoff string
`(datetime.now() - time_range).isoformat()`. -/
def EvState.get_events (st : EvState) (event_type? : Option EventType)
    (node_id? : Option String) (cutoff? : Option String) : List Event :=
  let filtered_events := st.events
  let filtered_events :=
    match event_type? with
    | some t => filtered_events.filter (fun e => e.ty = t.name)
    | none => filtered_events
  let filtered_events :=
    match node_id? with
    | some n => filtered_events.filter (fun e => e.target_node = some n)
    | none => filtered_events
  match cutoff? with
  | some cutoff => filtered_events.filter (fun e => decide (cutoff ≤ e.timestamp))
  | none => filtered_events

/-- The `if intensity == "high"` stress loop of `run_load_test`: each target
node independently triggers a `RESOURCE_EXHAUSTION` event with probability 0.7. -/
def EvState.load_loop : List Node → EvState → World → EvState × World
  | [], st, w => (st, w)
  | node :: rest, st, w =>
      let r := w.rand
      if r.1 < 7/10 then
        let g := st.generate_event r.2 .RESOURCE_EXHAUSTION node
        EvState.load_loop rest g.1 g.2.1
      else
        EvState.load_loop rest st r.2

/-- The tail of `run_load_test` once a valid intensity has produced the
synthetic load levels: start event, capped pause, optional high-intensity
stress loop, completion event referencing the start event's id. -/
def EvState.run_load_test_body (st : EvState) (w : World) (target_node_type : String)
    (duration_seconds : ℚ) (intensity : String) (target_nodes : List Node)
    (cpu_load memory_load : ℚ) (connection_load : ℤ) : Bool × EvState × World × List ℚ :=
  let t1 := w.now
  let load_test_event : Event :=
    { id := st.events.length + 1, ty := "LOAD_TEST", target_node := none,
      target_type := target_node_type, timestamp := t1.1,
      details := [("duration_seconds", Val.q duration_seconds),
                  ("intensity", Val.s intensity), ("cpu_load", Val.q cpu_load),
                  ("memory_load", Val.q memory_load),
                  ("connection_load", Val.i connection_load)],
      target_nodes := target_nodes.map (fun n => n.id) }
  let st1 := { st with events := st.events ++ [load_test_event] }
  let sleep1 := min duration_seconds 5
  let r :=
    if intensity = "high" then EvState.load_loop target_nodes st1 t1.2
    else (st1, t1.2)
  let u1 := r.2.uniform 10 50
  let u2 := u1.2.uniform 5 30
  let u3 := u2.2.uniform 1 20
  let t2 := u3.2.now
  let completion_event : Event :=
    { id := r.1.events.length + 1, ty := "LOAD_TEST_COMPLETED", target_node := none,
      target_type := target_node_type, timestamp := t2.1,
      details := [("original_test_id", Val.i (load_test_event.id : ℤ)),
                  ("success", Val.b true), ("failures", Val.i 0),
                  ("performance_impact",
                   Val.d [("latency_increase_percent", Val.q u1.1),
                          ("throughput_decrease_percent", Val.q u2.1),
                          ("error_rate_increase_percent", Val.q u3.1)])],
      target_nodes := target_nodes.map (fun n => n.id) }
  (true, { r.1 with events := r.1.events ++ [completion_event] }, t2.2, [sleep1])

/-- `EventSimulator.run_load_test`.  Returns the Python boolean result, the
new state, the remaining world, and the list of `time.sleep` durations
requested (the single pause is capped at `min(duration_seconds, 5)`). -/
def EvState.run_load_test (st : EvState) (w : World) (target_node_type : String)
    (duration_seconds : ℚ) (intensity : String) : Bool × EvState × World × List ℚ :=
  let target_nodes := st.network_nodes.filter (fun n => n.ty = target_node_type)
  if target_nodes = [] then (false, st, w, [])
  else
    let loads : Option ((ℚ × ℚ × ℤ) × World) :=
      if intensity = "low" then
        let u1 := w.uniform 50 70
        let u2 := u1.2.uniform 40 60
        let u3 := u2.2.randint 100 500
        some ((u1.1, u2.1, u3.1), u3.2)
      else if intensity = "medium" then
        let u1 := w.uniform 70 85
        let u2 := u1.2.uniform 60 80
        let u3 := u2.2.randint 500 2000
        some ((u1.1, u2.1, u3.1), u3.2)
      else if intensity = "high" then
        let u1 := w.uniform 85 95
        let u2 := u1.2.uniform 80 95
        let u3 := u2.2.randint 2000 5000
        some ((u1.1, u2.1, u3.1), u3.2)
      else none
    match loads with
    | none => (false, st, w, [])
    | some ((cpu_load, memory_load, connection_load), w) =>
        st.run_load_test_body w target_node_type duration_seconds intensity target_nodes
          cpu_load memory_load connection_load

/-! ## Platform controller (`platform.py`) -/

/-- `OAMPlatform`: each telemetry subsystem is constructed with its own
independent copy of the node list (the IP-traffic simulator and dashboard
components consume no engine state and are external to the claims). -/
structure OAMPlatform where
  oam : OAMState
  kpi : KPIState
  event : EvState
deriving Repr

/-- `OAMPlatform.initialize_components`. -/
def OAMPlatform.init : OAMPlatform :=
  { oam := OAMState.init, kpi := KPIState.init, event := EvState.init }

/-- The `node_down` fault-generation branch executed by the OAM module's
fault thread, lifted to the platform: only the OAM subsystem's state is
touched. -/
def OAMPlatform.fault_node_down (p : OAMPlatform) (w : World) (node : Node) :
    OAMPlatform × World :=
  let r := p.oam.fault_node_down w node
  ({ p with oam := r.1 }, r.2)

/-! ## Specification-side definitions and invariants -/

/-- Every stored alarm id is below the allocation counter (holds of every
reachable `OAMState` and forces freshness of created ids). -/
def alarmIdsBounded (s : OAMState) : Prop :=
  ∀ p ∈ s.alarms, p.1 < s.alarm_id_counter

/-- Every stored event id is at most the log length (holds of every reachable
event log, since ids are allocated as `len(self.events) + 1`). -/
def eventIdsBounded (es : List Event) : Prop :=
  ∀ e ∈ es, e.id ≤ es.length

/-- Event ids appear in strictly increasing order along the log. -/
def eventIdsIncreasing (es : List Event) : Prop :=
  es.Pairwise (fun a b => a.id < b.id)

/-- The event-log identifier invariant. -/
def EventsOK (es : List Event) : Prop :=
  eventIdsBounded es ∧ eventIdsIncreasing es

/-- Lexicographic comparison of character sequences, written out as the
specification reads: shorter-or-equal prefixes first, character order at
the first difference.  Used to check that the code's string `>=` really is
this order. -/
def lexLe : List Char → List Char → Bool
  | [], _ => true
  | _ :: _, [] => false
  | a :: as', b :: bs => if a < b then true else if b < a then false else lexLe as' bs

/-- The window stored at one (KPI, node) key, if any. -/
def windowOf (s : KPIState) (kpi_id node_id : String) : Option (List Sample) :=
  match lookup1 s.kpi_data kpi_id with
  | none => none
  | some nd => lookup1 nd node_id

set_option allowUnsafeReducibility true in
attribute [semireducible] Rat.ofScientific

/-! ## C4: KPI windows are FIFO-bounded at capacity 1000 -/

/-- C4.  Appending a sample to a (KPI, node) window already holding 1000
samples leaves the window at length exactly 1000: the single oldest sample
is dropped and the remaining 999 keep their order, followed by the new
sample. -/
theorem window_fifo_at_capacity (win : List Sample) (x : Sample)
    (h : win.length = 1000) :
    (windowAppend win x).length = 1000 ∧ windowAppend win x = win.drop 1 ++ [x] := by
  have hlen : (win ++ [x]).length = 1001 := by simp [h]
  have hgt : 1000 < (win ++ [x]).length := by rw [hlen]; norm_num
  have heq : windowAppend win x = (win ++ [x]).drop 1 := by
    rw [windowAppend]
    simp only [hlen]
    norm_num
  have hdrop : (win ++ [x]).drop 1 = win.drop 1 ++ [x] :=
    List.drop_append_of_le_length (by rw [h]; norm_num)
  refine ⟨?_, by rw [heq, hdrop]⟩
  rw [heq, List.length_drop, hlen]

/-- Witness for C4 at a concrete full window. -/
theorem window_fifo_at_capacity_witness :
    (windowAppend (List.replicate 1000 ⟨"t", 0⟩) ⟨"u", 1⟩).length = 1000 ∧
    windowAppend (List.replicate 1000 ⟨"t", 0⟩) ⟨"u", 1⟩ =
      (List.replicate 1000 (⟨"t", 0⟩ : Sample)).drop 1 ++ [⟨"u", 1⟩] :=
  window_fifo_at_capacity (List.replicate 1000 ⟨"t", 0⟩) ⟨"u", 1⟩
    (by rw [List.length_replicate])

/-! ## C2: semantics of `_clear_alarm` -/

/-- C2 (counterexample).  Clearing an alarm that is already in status
cleared is not a no-op returning false: `_clear_alarm` only checks key
presence, so it returns true and overwrites `cleared_time`. -/
theorem clear_cleared_alarm_not_noop :
    (((OAMState.mk true
        [(1, ⟨1, "gnb-001", "EQUIPMENT", "CRITICAL", "Node gnb-001 is down",
              "t0", "cleared", some "t1"⟩)] 2 initialNodes).clear_alarm
        ⟨[], ["t2"]⟩ 1).1 = true) ∧
    lookup1 (((OAMState.mk true
        [(1, ⟨1, "gnb-001", "EQUIPMENT", "CRITICAL", "Node gnb-001 is down",
              "t0", "cleared", some "t1"⟩)] 2 initialNodes).clear_alarm
        ⟨[], ["t2"]⟩ 1).2.1.alarms) 1 =
      some ⟨1, "gnb-001", "EQUIPMENT", "CRITICAL", "Node gnb-001 is down",
            "t0", "cleared", some "t2"⟩ := by
  constructor
  · rfl
  · rfl

/-- C2 (amended).  Clearing an absent alarm id is a no-op returning false;
clearing any stored alarm — active or already cleared — returns true, sets
its status to cleared, and overwrites `cleared_time` with the current clock
value (so `cleared_time` records the latest clear, not only the first);
all other alarms and the rest of the state are untouched. -/
theorem clear_alarm_cases (s : OAMState) (w : World) (aid : Nat) :
    (lookup1 s.alarms aid = none → s.clear_alarm w aid = (false, s, w)) ∧
    (∀ a : Alarm, lookup1 s.alarms aid = some a →
      (s.clear_alarm w aid).1 = true ∧
      lookup1 (s.clear_alarm w aid).2.1.alarms aid =
        some { a with status := "cleared", cleared_time := some w.now.1 } ∧
      (∀ k, k ≠ aid →
        lookup1 (s.clear_alarm w aid).2.1.alarms k = lookup1 s.alarms k) ∧
      (s.clear_alarm w aid).2.1.alarm_id_counter = s.alarm_id_counter ∧
      (s.clear_alarm w aid).2.1.network_nodes = s.network_nodes) := by
  constructor
  · intro h
    rw [OAMState.clear_alarm, h]
  · intro a ha
    rw [OAMState.clear_alarm, ha]
    refine ⟨rfl, ?_, ?_, rfl, rfl⟩
    · simp only [lookup1_dictSet_self]
    · intro k hk
      simp only [lookup1_dictSet_ne s.alarms aid k _ hk]

/-- Witness for C2 (amended): a miss on an empty store and a hit on a
one-alarm store. -/
theorem clear_alarm_cases_witness :
    OAMState.init.clear_alarm ⟨[], []⟩ 7 = (false, OAMState.init, ⟨[], []⟩) ∧
    ((OAMState.mk true [(1, ⟨1, "n1", "EQUIPMENT", "MAJOR", "d", "t0", "active", none⟩)]
        2 []).clear_alarm ⟨[], ["t1"]⟩ 1).1 = true :=
  ⟨(clear_alarm_cases OAMState.init ⟨[], []⟩ 7).1 rfl,
   ((clear_alarm_cases
      (OAMState.mk true [(1, ⟨1, "n1", "EQUIPMENT", "MAJOR", "d", "t0", "active", none⟩)] 2 [])
      ⟨[], ["t1"]⟩ 1).2
      ⟨1, "n1", "EQUIPMENT", "MAJOR", "d", "t0", "active", none⟩ rfl).1⟩

/-! ## C10: the status snapshot counts cleared alarms -/

/-- C10.  `get_status`'s `active_alarms` field is `len(self.alarms)`, and
`_clear_alarm` never removes an entry, so clearing leaves the reported
count unchanged; after creating one alarm and clearing it the snapshot
still reports `active_alarms = 1`. -/
theorem active_alarms_counts_cleared :
    (∀ (s : OAMState) (w : World) (aid : Nat),
      ((s.clear_alarm w aid).2.1.get_status).active_alarms =
        (s.get_status).active_alarms) ∧
    ((OAMState.init.create_alarm ⟨[], ["t1"]⟩ "gnb-001" .PROCESSING_ERROR .MAJOR
        "High CPU usage: 91.2%").2.1.clear_alarm ⟨[], ["t2"]⟩
        (OAMState.init.create_alarm ⟨[], ["t1"]⟩ "gnb-001" .PROCESSING_ERROR .MAJOR
        "High CPU usage: 91.2%").1).2.1.get_status.active_alarms = 1 := by
  constructor
  · intro s w aid
    show (s.clear_alarm w aid).2.1.alarms.length = s.alarms.length
    rcases h : lookup1 s.alarms aid with _ | a
    · rw [OAMState.clear_alarm, h]
    · rw [OAMState.clear_alarm, h]
      exact length_dictSet_of_found s.alarms aid _ a h
  · rfl

/-! ## C3: threshold evaluation -/

theorem analyzeNodes_severity (kpi : KPIDef) (nd : List (String × List Sample))
    (issues : List Issue) (h : ∀ i ∈ issues, i.severity ≠ "OK") :
    ∀ i ∈ analyzeNodes kpi nd issues, i.severity ≠ "OK" := by
  induction nd generalizing issues with
  | nil => exact h
  | cons p rest ih =>
      rw [analyzeNodes] at *
      rw [List.foldl_cons]
      apply ih
      rcases hl : p.2.getLast? with _ | latest
      · simpa [hl] using h
      · simp only [hl]
        split
        · rename_i hsev
          intro i hi
          rcases List.mem_append.1 hi with hi | hi
          · exact h i hi
          · rcases List.mem_singleton.1 hi with rfl
            exact hsev
        · exact h

theorem analyzeAll_severity (data : List (String × List (String × List Sample)))
    (defs : List KPIDef) (issues : List Issue) (h : ∀ i ∈ issues, i.severity ≠ "OK") :
    ∀ i ∈ analyzeAll data defs issues, i.severity ≠ "OK" := by
  induction defs generalizing issues with
  | nil => exact h
  | cons kpi rest ih =>
      rw [analyzeAll] at *
      rw [List.foldl_cons]
      apply ih
      rcases hd : lookup1 data kpi.id with _ | node_data
      · simpa [hd] using h
      · simp only [hd]
        exact analyzeNodes_severity kpi node_data issues h

/-- C3.  Threshold evaluation over the latest sample: for categories
availability/quality, CRITICAL iff `value < critical_threshold`, WARNING
iff `critical_threshold ≤ value < warning_threshold`, OK otherwise; for
performance/resource the comparisons are inverted; only non-OK results
enter the issue list; and on the spec's concrete inputs, availability 99.4
is CRITICAL, CPU 82 is WARNING, CPU 75 raises no issue. -/
theorem threshold_classification :
    (∀ (category : String) (wt ct v : ℚ),
      category = "availability" ∨ category = "quality" →
      (classify_severity category wt ct v = "CRITICAL" ↔ v < ct) ∧
      (classify_severity category wt ct v = "WARNING" ↔ ct ≤ v ∧ v < wt) ∧
      (classify_severity category wt ct v = "OK" ↔ ct ≤ v ∧ wt ≤ v)) ∧
    (∀ (category : String) (wt ct v : ℚ),
      category = "performance" ∨ category = "resource" →
      (classify_severity category wt ct v = "CRITICAL" ↔ ct < v) ∧
      (classify_severity category wt ct v = "WARNING" ↔ wt < v ∧ v ≤ ct) ∧
      (classify_severity category wt ct v = "OK" ↔ v ≤ wt ∧ v ≤ ct)) ∧
    (∀ (s : KPIState), ∀ i ∈ s.analyze_kpi_data, i.severity ≠ "OK") ∧
    (KPIState.init.appendSample "node_availability" "gnb-001"
        ⟨"t1", 99.4⟩).analyze_kpi_data =
      [⟨"gnb-001", "node_availability", "Node Availability", 99.4, "%", "CRITICAL", "t1"⟩] ∧
    (KPIState.init.appendSample "cpu_utilization" "gnb-001"
        ⟨"t1", 82⟩).analyze_kpi_data =
      [⟨"gnb-001", "cpu_utilization", "CPU Utilization", 82, "%", "WARNING", "t1"⟩] ∧
    (KPIState.init.appendSample "cpu_utilization" "gnb-001"
        ⟨"t1", 75⟩).analyze_kpi_data = [] := by
  refine ⟨?_, ?_, ?_, by decide, by decide, by decide⟩
  · intro category wt ct v h
    have hcat : classify_severity category wt ct v =
        (if v < ct then "CRITICAL" else if v < wt then "WARNING" else "OK") := by
      rw [classify_severity, if_pos h]
    refine ⟨?_, ?_, ?_⟩ <;> rw [hcat] <;> split_ifs with h1 h2 <;>
      simp only [String.reduceEq, true_iff, false_iff, iff_true, iff_false] <;>
      first
        | exact h1
        | exact ⟨le_of_not_lt h1, h2⟩
        | exact ⟨le_of_not_lt h1, le_of_not_lt h2⟩
        | exact fun hx => absurd h1 (not_lt.2 hx.1)
        | exact fun hx => h2 hx.2
        | exact fun hx => absurd h2 (not_lt.2 hx.2)
  · intro category wt ct v h
    have hne : ¬(category = "availability" ∨ category = "quality") := by
      rcases h with h | h <;> subst h <;> decide
    have hcat : classify_severity category wt ct v =
        (if ct < v then "CRITICAL" else if wt < v then "WARNING" else "OK") := by
      rw [classify_severity, if_neg hne]
    refine ⟨?_, ?_, ?_⟩ <;> rw [hcat] <;> split_ifs with h1 h2 <;>
      simp only [String.reduceEq, true_iff, false_iff, iff_true, iff_false] <;>
      first
        | exact h1
        | exact ⟨h2, le_of_not_lt h1⟩
        | exact ⟨le_of_not_lt h2, le_of_not_lt h1⟩
        | exact fun hx => absurd h1 (not_lt.2 hx.2)
        | exact fun hx => absurd h2 (not_lt.2 hx.1)
        | exact fun hx => h2 hx.1
  · intro s
    exact analyzeAll_severity s.kpi_data kpi_definitions [] (by intro i hi; cases hi)

/-! ## C1: identifier monotonicity -/

theorem create_alarm_fresh (s : OAMState) (w : World) (nid : String)
    (ty : AlarmType) (sev : AlarmSeverity) (desc : String) (h : alarmIdsBounded s) :
    (∀ p ∈ s.alarms, p.1 < (s.create_alarm w nid ty sev desc).1) ∧
    alarmIdsBounded (s.create_alarm w nid ty sev desc).2.1 ∧
    (s.create_alarm w nid ty sev desc).2.1.alarm_id_counter = s.alarm_id_counter + 1 := by
  refine ⟨fun p hp => h p hp, ?_, rfl⟩
  intro p hp
  rcases mem_dictSet s.alarms s.alarm_id_counter _ p hp with hm | hm
  · exact Nat.lt_succ_of_lt (h p hm)
  · rw [hm]
    exact Nat.lt_succ_self _

theorem clear_alarm_bounded (s : OAMState) (w : World) (aid : Nat)
    (h : alarmIdsBounded s) :
    alarmIdsBounded (s.clear_alarm w aid).2.1 ∧
    (s.clear_alarm w aid).2.1.alarm_id_counter = s.alarm_id_counter := by
  rcases hl : lookup1 s.alarms aid with _ | a
  · rw [OAMState.clear_alarm, hl]
    exact ⟨h, rfl⟩
  · rw [OAMState.clear_alarm, hl]
    refine ⟨?_, rfl⟩
    intro p hp
    rcases mem_dictSet s.alarms aid _ p hp with hm | hm
    · exact h p hm
    · rw [hm]
      exact h (aid, a) (lookup1_mem s.alarms aid a hl)

theorem generate_event_parts (st : EvState) (w : World) (ty : EventType) (tn : Node) :
    (st.generate_event w ty tn).1.events = st.events ++ [(st.generate_event w ty tn).2.2] ∧
    (st.generate_event w ty tn).2.2.id = st.events.length + 1 ∧
    (st.generate_event w ty tn).2.2.ty = ty.name := by
  cases ty <;> exact ⟨rfl, rfl, rfl⟩

theorem events_ok_append (es : List Event) (ev : Event) (hid : ev.id = es.length + 1)
    (h : EventsOK es) : (∀ e ∈ es, e.id < ev.id) ∧ EventsOK (es ++ [ev]) := by
  obtain ⟨hb, hp⟩ := h
  have hfresh : ∀ e ∈ es, e.id < ev.id := by
    intro e he
    rw [hid]
    exact Nat.lt_succ_of_le (hb e he)
  refine ⟨hfresh, ?_, ?_⟩
  · intro e he
    rw [List.length_append, List.length_singleton]
    rcases List.mem_append.1 he with he | he
    · exact Nat.le_succ_of_le (hb e he)
    · rcases List.mem_singleton.1 he with rfl
      rw [hid]
  · show List.Pairwise (fun a b => a.id < b.id) (es ++ [ev])
    rw [List.pairwise_append]
    refine ⟨hp, List.pairwise_singleton _ _, ?_⟩
    intro a ha b hb'
    rcases List.mem_singleton.1 hb' with rfl
    exact hfresh a ha

theorem events_ok_snoc (es : List Event) (ev : Event) (h : EventsOK es)
    (hid : ev.id = es.length + 1) : EventsOK (es ++ [ev]) :=
  (events_ok_append es ev hid h).2

theorem generate_event_ok (st : EvState) (w : World) (ty : EventType) (tn : Node)
    (h : EventsOK st.events) :
    (∀ e ∈ st.events, e.id < (st.generate_event w ty tn).2.2.id) ∧
    EventsOK (st.generate_event w ty tn).1.events := by
  obtain ⟨hev, hid, -⟩ := generate_event_parts st w ty tn
  obtain ⟨h1, h2⟩ := events_ok_append st.events _ hid h
  exact ⟨h1, hev ▸ h2⟩

theorem run_scenario_events_ok :
    ∀ (specs : List EventSpec) (st : EvState) (w : World), EventsOK st.events →
      EventsOK (st.run_scenario_events w specs).1.events := by
  intro specs
  induction specs with
  | nil =>
      intro st w h
      exact h
  | cons d rest ih =>
      intro st w h
      rw [EvState.run_scenario_events]
      dsimp only
      split
      · exact ih st _ h
      · split <;> split <;>
          first
            | exact ih st _ h
            | exact ih _ _ (generate_event_ok st _ d.ty _ h).2

theorem random_events_loop_ok :
    ∀ (n : Nat) (st : EvState) (w : World), EventsOK st.events →
      EventsOK (EvState.random_events_loop n st w).1.events := by
  intro n
  induction n with
  | zero => intro st w h; exact h
  | succ n ih =>
      intro st w h
      rw [EvState.random_events_loop]
      dsimp only
      exact ih _ _ (generate_event_ok st _ _ _ h).2

theorem load_loop_ok :
    ∀ (nodes : List Node) (st : EvState) (w : World), EventsOK st.events →
      EventsOK (EvState.load_loop nodes st w).1.events := by
  intro nodes
  induction nodes with
  | nil => intro st w h; exact h
  | cons node rest ih =>
      intro st w h
      rw [EvState.load_loop]
      dsimp only
      split
      · exact ih _ _ (generate_event_ok st _ _ _ h).2
      · exact ih st _ h

theorem run_load_test_body_ok (st : EvState) (w : World) (nt : String) (d : ℚ)
    (i : String) (tns : List Node) (c m : ℚ) (k : ℤ) (h : EventsOK st.events) :
    EventsOK (st.run_load_test_body w nt d i tns c m k).2.1.events := by
  rw [EvState.run_load_test_body]
  dsimp only
  refine events_ok_snoc _ _ ?_ rfl
  split
  · exact load_loop_ok _ _ _ (events_ok_snoc _ _ h rfl)
  · exact events_ok_snoc _ _ h rfl

theorem run_load_test_ok (st : EvState) (w : World) (nt : String) (d : ℚ) (i : String)
    (h : EventsOK st.events) : EventsOK (st.run_load_test w nt d i).2.1.events := by
  rw [EvState.run_load_test]
  dsimp only
  split
  · exact h
  · split
    · exact h
    · exact run_load_test_body_ok st _ nt d i _ _ _ _ h

/-- C1.  Alarm-id allocation in `_create_alarm` is strictly monotone (every
new id exceeds every stored id, and the bound invariant is preserved by
both create and clear, so ids are never reused, also after a clear), and
every event appended by `_generate_event` — hence by scenario execution,
random event generation and the load-test path — carries an id strictly
greater than every previously appended event's id, keeping the log's id
sequence strictly increasing. -/
theorem identifier_monotonicity :
    (∀ (s : OAMState) (w : World) (nid : String) (ty : AlarmType) (sev : AlarmSeverity)
       (desc : String), alarmIdsBounded s →
       (∀ p ∈ s.alarms, p.1 < (s.create_alarm w nid ty sev desc).1) ∧
       alarmIdsBounded (s.create_alarm w nid ty sev desc).2.1) ∧
    (∀ (s : OAMState) (w : World) (aid : Nat), alarmIdsBounded s →
       alarmIdsBounded (s.clear_alarm w aid).2.1 ∧
       (s.clear_alarm w aid).2.1.alarm_id_counter = s.alarm_id_counter) ∧
    (∀ (st : EvState) (w : World) (ty : EventType) (tn : Node), EventsOK st.events →
       (∀ e ∈ st.events, e.id < (st.generate_event w ty tn).2.2.id) ∧
       EventsOK (st.generate_event w ty tn).1.events) ∧
    (∀ (st : EvState) (w : World) (specs : List EventSpec), EventsOK st.events →
       EventsOK (st.run_scenario_events w specs).1.events) ∧
    (∀ (st : EvState) (w : World), EventsOK st.events →
       EventsOK (st.generate_random_events w).1.events) ∧
    (∀ (st : EvState) (w : World) (nt : String) (d : ℚ) (i : String),
       EventsOK st.events → EventsOK (st.run_load_test w nt d i).2.1.events) :=
  ⟨fun s w nid ty sev desc h =>
      ⟨(create_alarm_fresh s w nid ty sev desc h).1,
       (create_alarm_fresh s w nid ty sev desc h).2.1⟩,
   fun s w aid h => clear_alarm_bounded s w aid h,
   fun st w ty tn h => generate_event_ok st w ty tn h,
   fun st w specs h => run_scenario_events_ok specs st w h,
   fun st w h => random_events_loop_ok _ st _ h,
   fun st w nt d i h => run_load_test_ok st w nt d i h⟩

/-- Witness for C1 at the initial states. -/
theorem identifier_monotonicity_witness :
    (∀ p ∈ OAMState.init.alarms,
       p.1 < (OAMState.init.create_alarm ⟨[], []⟩ "gnb-001" .EQUIPMENT .CRITICAL "x").1) ∧
    EventsOK ((EvState.init.run_load_test ⟨[], []⟩ "UPF" 120 "high").2.1.events) :=
  ⟨(identifier_monotonicity.1 OAMState.init ⟨[], []⟩ "gnb-001" .EQUIPMENT .CRITICAL "x"
      (by intro p hp; cases hp)).1,
   identifier_monotonicity.2.2.2.2.2 EvState.init ⟨[], []⟩ "UPF" 120 "high"
      (And.intro (fun e he => by cases he) List.Pairwise.nil)⟩

/-! ## C5: node recovery clears exactly the node-down alarms -/

theorem lookup1_cons_ne {κ β : Type} [DecidableEq κ] (h : κ × β) (l : List (κ × β))
    (k : κ) (hne : h.1 ≠ k) : lookup1 (h :: l) k = lookup1 l k := by
  rw [lookup1, if_neg hne]

theorem dictSet_cons_ne {κ β : Type} [DecidableEq κ] (h : κ × β) (l : List (κ × β))
    (k : κ) (v : β) (hne : h.1 ≠ k) : dictSet (h :: l) k v = h :: dictSet l k v := by
  rw [dictSet, if_neg hne]

theorem clearMatchingStep_cons (nodeId : String) (s : OAMState) (w : World)
    (q h : Nat × Alarm) (hne : q.1 ≠ h.1) :
    clearMatchingStep nodeId ({ s with alarms := h :: s.alarms }, w) q =
      (let r := clearMatchingStep nodeId (s, w) q
       ({ r.1 with alarms := h :: r.1.alarms }, r.2)) := by
  rw [clearMatchingStep, clearMatchingStep]
  split
  · rw [OAMState.clear_alarm, OAMState.clear_alarm]
    dsimp only
    rw [lookup1_cons_ne h s.alarms q.1 (Ne.symm hne)]
    cases hl : lookup1 s.alarms q.1 with
    | none => rfl
    | some a =>
        dsimp only
        rw [dictSet_cons_ne h s.alarms q.1 _ (Ne.symm hne)]
  · rfl

theorem foldl_clear_frame (nodeId : String) :
    ∀ (snap : List (Nat × Alarm)) (s : OAMState) (w : World) (h : Nat × Alarm),
      (∀ q ∈ snap, q.1 ≠ h.1) →
      snap.foldl (clearMatchingStep nodeId) ({ s with alarms := h :: s.alarms }, w) =
        (let r := snap.foldl (clearMatchingStep nodeId) (s, w)
         ({ r.1 with alarms := h :: r.1.alarms }, r.2)) := by
  intro snap
  induction snap with
  | nil => intro s w h _; rfl
  | cons q rest ih =>
      intro s w h hq
      rw [List.foldl_cons, List.foldl_cons,
          clearMatchingStep_cons nodeId s w q h (hq q (List.mem_cons_self q rest))]
      exact ih (clearMatchingStep nodeId (s, w) q).1 (clearMatchingStep nodeId (s, w) q).2 h
        (fun q' hq' => hq q' (List.mem_cons_of_mem q hq'))

/-- The relation between a snapshot alarm entry and the corresponding
entry after the recovery loop: matching entries are cleared (with some
clear time), all other entries are exactly unchanged. -/
def RelC (nodeId : String) (p q : Nat × Alarm) : Prop :=
  if p.2.node_id = nodeId ∧ p.2.description = nodeDownMsg nodeId then
    q.1 = p.1 ∧ ∃ t, q.2 = { p.2 with status := "cleared", cleared_time := some t }
  else q = p

theorem recover_fold_char (nodeId : String) :
    ∀ (snap : List (Nat × Alarm)) (s : OAMState) (w : World),
      s.alarms = snap → (snap.map Prod.fst).Nodup →
      List.Forall₂ (RelC nodeId) snap
        (snap.foldl (clearMatchingStep nodeId) (s, w)).1.alarms ∧
      (snap.foldl (clearMatchingStep nodeId) (s, w)).1.network_nodes =
        s.network_nodes ∧
      (snap.foldl (clearMatchingStep nodeId) (s, w)).1.alarm_id_counter =
        s.alarm_id_counter := by
  intro snap
  induction snap with
  | nil =>
      intro s w hal _
      refine ⟨?_, rfl, rfl⟩
      rw [List.foldl_nil, hal]
      exact List.Forall₂.nil
  | cons p rest ih =>
      intro s w hal hnd
      rw [List.map_cons, List.nodup_cons] at hnd
      obtain ⟨hp1, hndr⟩ := hnd
      have hqne : ∀ q ∈ rest, q.1 ≠ p.1 := by
        intro q hq he
        exact hp1 (he ▸ List.mem_map_of_mem Prod.fst hq)
      have hs : s = { s with alarms := p :: rest } := by
        rw [← hal]
      rw [List.foldl_cons]
      by_cases hm : p.2.node_id = nodeId ∧ p.2.description = nodeDownMsg nodeId
      · have hstep : clearMatchingStep nodeId (s, w) p =
            ({ s with alarms :=
                (p.1, { p.2 with status := "cleared", cleared_time := some w.now.1 })
                  :: rest }, w.now.2) := by
          rw [clearMatchingStep, if_pos hm, OAMState.clear_alarm]
          dsimp only
          rw [hal, lookup1, if_pos rfl]
          dsimp only
          rw [dictSet, if_pos rfl]
        rw [hstep]
        have hframe := foldl_clear_frame nodeId rest { s with alarms := rest } w.now.2
          (p.1, { p.2 with status := "cleared", cleared_time := some w.now.1 }) hqne
        rw [hframe]
        obtain ⟨hf, hn, hc⟩ := ih { s with alarms := rest } w.now.2 rfl hndr
        refine ⟨?_, hn, hc⟩
        exact List.Forall₂.cons
          (by rw [RelC, if_pos hm]; exact ⟨rfl, w.now.1, rfl⟩) hf
      · have hstep : clearMatchingStep nodeId (s, w) p = (s, w) := by
          rw [clearMatchingStep, if_neg hm]
        rw [hstep]
        have hframe := foldl_clear_frame nodeId rest { s with alarms := rest } w p hqne
        rw [hs]
        rw [(rfl : ({ s with alarms := p :: rest } : OAMState) =
              { { s with alarms := rest } with
                  alarms := p :: ({ s with alarms := rest } : OAMState).alarms })]
        rw [hframe]
        obtain ⟨hf, hn, hc⟩ := ih { s with alarms := rest } w rfl hndr
        refine ⟨?_, hn, hc⟩
        exact List.Forall₂.cons (by rw [RelC, if_neg hm]) hf

/-- C5.  When a down node recovers, the recovery branch clears exactly the
alarms of that node whose description equals the literal
`"Node {id} is down"` string: matching entries get status cleared (with a
clear time), every other alarm entry — for example an active
`"High CPU usage: 91.2%"` alarm on the same node — is exactly unchanged,
so an active one remains active; the node itself is set back to active. -/
theorem recovery_clears_only_node_down (s : OAMState) (w : World) (node : Node)
    (hnd : (s.alarms.map Prod.fst).Nodup) :
    List.Forall₂ (RelC node.id) s.alarms (s.recover_node w node).1.alarms ∧
    (s.recover_node w node).1.network_nodes =
      s.network_nodes.map
        (fun n => if n.id = node.id then { n with status := "active" } else n) := by
  obtain ⟨hf, hn, -⟩ := recover_fold_char node.id s.alarms
    (OAMState.mk s.running s.alarms s.alarm_id_counter
      (s.network_nodes.map
        (fun n => if n.id = node.id then { n with status := "active" } else n)))
    w rfl hnd
  exact ⟨hf, hn⟩

/-- Witness for C5: one matching node-down alarm is cleared while an active
high-CPU alarm on the same node survives. -/
theorem recovery_clears_only_node_down_witness :
    List.Forall₂ (RelC "upf-001")
      [(1, ⟨1, "upf-001", "EQUIPMENT", "CRITICAL", "Node upf-001 is down",
            "t0", "active", none⟩),
       (2, ⟨2, "upf-001", "PROCESSING_ERROR", "MAJOR", "High CPU usage: 91.2%",
            "t1", "active", none⟩)]
      ((OAMState.mk true
        [(1, ⟨1, "upf-001", "EQUIPMENT", "CRITICAL", "Node upf-001 is down",
              "t0", "active", none⟩),
         (2, ⟨2, "upf-001", "PROCESSING_ERROR", "MAJOR", "High CPU usage: 91.2%",
              "t1", "active", none⟩)] 3 initialNodes).recover_node ⟨[], ["t9"]⟩
        ⟨"upf-001", "UPF", "10.0.3.1", "down"⟩).1.alarms ∧
    ((OAMState.mk true
        [(1, ⟨1, "upf-001", "EQUIPMENT", "CRITICAL", "Node upf-001 is down",
              "t0", "active", none⟩),
         (2, ⟨2, "upf-001", "PROCESSING_ERROR", "MAJOR", "High CPU usage: 91.2%",
              "t1", "active", none⟩)] 3 initialNodes).recover_node ⟨[], ["t9"]⟩
        ⟨"upf-001", "UPF", "10.0.3.1", "down"⟩).1.network_nodes =
      initialNodes.map
        (fun n => if n.id = "upf-001" then { n with status := "active" } else n) :=
  recovery_clears_only_node_down
    (OAMState.mk true
      [(1, ⟨1, "upf-001", "EQUIPMENT", "CRITICAL", "Node upf-001 is down",
            "t0", "active", none⟩),
       (2, ⟨2, "upf-001", "PROCESSING_ERROR", "MAJOR", "High CPU usage: 91.2%",
            "t1", "active", none⟩)] 3 initialNodes)
    ⟨[], ["t9"]⟩ ⟨"upf-001", "UPF", "10.0.3.1", "down"⟩ (by decide)

/-! ## C8: time-range filtering is lexicographic on timestamp strings -/

theorem lexLe_iff_not_lex :
    ∀ (a b : List Char), lexLe a b = true ↔ ¬ List.Lex (· < ·) b a := by
  intro a
  induction a with
  | nil =>
      intro b
      rw [lexLe]
      exact iff_of_true rfl (List.Lex.not_nil_right _ b)
  | cons x xs ih =>
      intro b
      cases b with
      | nil =>
          rw [lexLe]
          exact iff_of_false (by simp) (not_not_intro List.Lex.nil)
      | cons y ys =>
          rw [lexLe]
          by_cases h1 : x < y
          · rw [if_pos h1]
            refine iff_of_true rfl ?_
            intro hlex
            cases hlex with
            | rel hr => exact lt_asymm h1 hr
            | cons hc => exact lt_irrefl x h1
          · rw [if_neg h1]
            by_cases h2 : y < x
            · rw [if_pos h2]
              exact iff_of_false (by simp) (not_not_intro (List.Lex.rel h2))
            · rw [if_neg h2]
              have hxy : x = y := le_antisymm (le_of_not_lt h2) (le_of_not_lt h1)
              subst hxy
              rw [ih ys]
              constructor
              · intro h hlex
                cases hlex with
                | rel hr => exact h1 hr
                | cons hc => exact h hc
              · intro h hlex
                exact h (List.Lex.cons hlex)

/-- The code's string `>=` (Lean's `≤` on `String`, as Python compares
strings) agrees with the spec-side lexicographic comparison. -/
theorem string_le_iff_lexLe (s t : String) : s ≤ t ↔ lexLe s.data t.data = true := by
  rw [String.le_iff_toList_le, ← not_lt]
  exact (lexLe_iff_not_lex s.data t.data).symm

theorem decide_le_eq_lexLe (s t : String) : decide (s ≤ t) = lexLe s.data t.data := by
  by_cases h : s ≤ t
  · rw [decide_eq_true h, (string_le_iff_lexLe s t).mp h]
  · cases hb : lexLe s.data t.data
    · exact decide_eq_false h
    · exact absurd ((string_le_iff_lexLe s t).mpr hb) h

/-- C8.  The time-range filters of `get_events` and `get_kpi_data` keep
exactly the records whose timestamp string is lexicographically ≥ the
cutoff string `T` (string comparison, not epoch comparison), preserving
the stored order of the kept records. -/
theorem time_filter_lexicographic :
    (∀ (st : EvState) (T : String),
      st.get_events none none (some T) =
        st.events.filter (fun e => lexLe T.data e.timestamp.data) ∧
      List.Sublist (st.get_events none none (some T)) st.events ∧
      (∀ e, e ∈ st.get_events none none (some T) ↔
        e ∈ st.events ∧ lexLe T.data e.timestamp.data = true)) ∧
    (∀ (s : KPIState) (k n T : String) (nd : List (String × List Sample))
       (dps : List Sample),
      lookup1 s.kpi_data k = some nd → lookup1 nd n = some dps →
      s.get_kpi_data (some k) (some n) (some T) =
        [(k, if dps.filter (fun dp => lexLe T.data dp.timestamp.data) = [] then []
             else [(n, dps.filter (fun dp => lexLe T.data dp.timestamp.data))])]) := by
  constructor
  · intro st T
    have hfe : st.get_events none none (some T) =
        st.events.filter (fun e => lexLe T.data e.timestamp.data) := by
      rw [EvState.get_events]
      exact List.filter_congr (fun e _ => decide_le_eq_lexLe T e.timestamp)
    refine ⟨hfe, ?_, ?_⟩
    · rw [hfe]
      exact List.filter_sublist _
    · intro e
      rw [hfe, List.mem_filter]
  · intro s k n T nd dps hk hn
    have hfilter : dps.filter (fun dp => decide (T ≤ dp.timestamp)) =
        dps.filter (fun dp => lexLe T.data dp.timestamp.data) :=
      List.filter_congr (fun dp _ => decide_le_eq_lexLe T dp.timestamp)
    rw [KPIState.get_kpi_data]
    simp only [hk, hn, List.map_cons, List.map_nil, List.foldr_cons, List.foldr_nil]
    rw [hfilter]
    by_cases he : dps.filter (fun dp => lexLe T.data dp.timestamp.data) = []
    · rw [if_neg (not_not_intro he), if_pos he]
    · rw [if_pos he, if_neg he]

/-- Witness for C8 on a one-sample window whose timestamp passes the cutoff. -/
theorem time_filter_lexicographic_witness :
    (KPIState.init.appendSample "node_availability" "gnb-001"
        ⟨"2026-01-02T00:00:00", 100⟩).get_kpi_data
      (some "node_availability") (some "gnb-001") (some "2026-01-01T00:00:00") =
      [("node_availability",
        if ([⟨"2026-01-02T00:00:00", (100 : ℚ)⟩] : List Sample).filter
            (fun dp => lexLe "2026-01-01T00:00:00".data dp.timestamp.data) = [] then []
        else [("gnb-001",
          ([⟨"2026-01-02T00:00:00", (100 : ℚ)⟩] : List Sample).filter
            (fun dp => lexLe "2026-01-01T00:00:00".data dp.timestamp.data))])] :=
  time_filter_lexicographic.2
    (KPIState.init.appendSample "node_availability" "gnb-001" ⟨"2026-01-02T00:00:00", 100⟩)
    "node_availability" "gnb-001" "2026-01-01T00:00:00" _ _ rfl rfl

/-! ## C9: per-subsystem node copies are independent -/

theorem windowOf_appendSample_ne (k k' : String) {s : KPIState} {nid nid' : String}
    {x : Sample} (hk : k ≠ k') :
    windowOf (s.appendSample k' nid' x) k nid = windowOf s k nid := by
  rw [windowOf, windowOf, KPIState.appendSample]
  dsimp only
  rw [lookup1_update1_ne s.kpi_data k' k _ hk]

theorem windowOf_appendSample_self (k nid : String) {s : KPIState} {x : Sample}
    (nd : List (String × List Sample)) (hk : lookup1 s.kpi_data k = some nd) :
    windowOf (s.appendSample k nid x) k nid =
      some (windowAppend ((lookup1 nd nid).getD []) x) := by
  rw [windowOf, KPIState.appendSample]
  dsimp only
  rw [lookup1_update1_self, hk]
  simp only [Option.map_some']
  rw [lookup1_upsert1_self]

theorem collect_availability (s : KPIState) (w : World) (node : Node)
    (nd : List (String × List Sample))
    (hk : lookup1 s.kpi_data "node_availability" = some nd) :
    windowOf (s.collect_node_kpis w node).1 "node_availability" node.id =
      some (windowAppend ((lookup1 nd node.id).getD [])
        ⟨w.now.1, if node.status = "active" then 100.0 else 0.0⟩) := by
  rw [KPIState.collect_node_kpis]
  dsimp only
  split
  · split
    · rw [windowOf_appendSample_ne "node_availability" "recovery_time" (by decide),
          windowOf_appendSample_ne "node_availability" "connection_success_rate" (by decide),
          windowOf_appendSample_ne "node_availability" "throughput" (by decide),
          windowOf_appendSample_ne "node_availability" "error_rate" (by decide),
          windowOf_appendSample_ne "node_availability" "service_latency" (by decide),
          windowOf_appendSample_ne "node_availability" "memory_utilization" (by decide),
          windowOf_appendSample_ne "node_availability" "cpu_utilization" (by decide),
          windowOf_appendSample_self "node_availability" node.id nd hk]
    · rw [windowOf_appendSample_ne "node_availability" "connection_success_rate" (by decide),
          windowOf_appendSample_ne "node_availability" "throughput" (by decide),
          windowOf_appendSample_ne "node_availability" "error_rate" (by decide),
          windowOf_appendSample_ne "node_availability" "service_latency" (by decide),
          windowOf_appendSample_ne "node_availability" "memory_utilization" (by decide),
          windowOf_appendSample_ne "node_availability" "cpu_utilization" (by decide),
          windowOf_appendSample_self "node_availability" node.id nd hk]
  · rw [windowOf_appendSample_ne "node_availability" "connection_success_rate" (by decide),
        windowOf_appendSample_ne "node_availability" "throughput" (by decide),
        windowOf_appendSample_ne "node_availability" "error_rate" (by decide),
        windowOf_appendSample_ne "node_availability" "service_latency" (by decide),
        windowOf_appendSample_ne "node_availability" "memory_utilization" (by decide),
        windowOf_appendSample_ne "node_availability" "cpu_utilization" (by decide),
        windowOf_appendSample_self "node_availability" node.id nd hk]

/-- C9.  Each subsystem holds its own copy of the node list: the
fault-generation `node_down` mutation touches only the OAM module's copy
(the KPI and event module states are unchanged), and the KPI collector,
reading its own copy, still appends a `node_availability` sample of 100.0
for a node that is active in the KPI copy — even when that same node was
just set down in the OAM copy. -/
theorem independent_node_copies (p : OAMPlatform) (w w' : World) (node n : Node)
    (hn : n ∈ p.kpi.network_nodes) (hact : n.status = "active")
    (nd : List (String × List Sample))
    (hk : lookup1 p.kpi.kpi_data "node_availability" = some nd) :
    (p.fault_node_down w node).1.kpi = p.kpi ∧
    (p.fault_node_down w node).1.event = p.event ∧
    (p.fault_node_down w node).1.oam.network_nodes =
      p.oam.network_nodes.map
        (fun m => if m.id = node.id then { m with status := "down" } else m) ∧
    windowOf ((p.fault_node_down w node).1.kpi.collect_node_kpis w' n).1
        "node_availability" n.id =
      some (windowAppend ((lookup1 nd n.id).getD []) ⟨w'.now.1, 100.0⟩) := by
  refine ⟨rfl, rfl, rfl, ?_⟩
  have hcoll := collect_availability p.kpi w' n nd hk
  rw [hact] at hcoll
  simp only [if_pos rfl] at hcoll
  exact hcoll

/-- Witness for C9: downing `upf-001` in the OAM copy while the KPI copy
still collects availability 100 for it. -/
theorem independent_node_copies_witness :
    (OAMPlatform.init.fault_node_down ⟨[], ["t1"]⟩
        ⟨"upf-001", "UPF", "10.0.3.1", "active"⟩).1.kpi = OAMPlatform.init.kpi ∧
    (OAMPlatform.init.fault_node_down ⟨[], ["t1"]⟩
        ⟨"upf-001", "UPF", "10.0.3.1", "active"⟩).1.event = OAMPlatform.init.event ∧
    (OAMPlatform.init.fault_node_down ⟨[], ["t1"]⟩
        ⟨"upf-001", "UPF", "10.0.3.1", "active"⟩).1.oam.network_nodes =
      OAMPlatform.init.oam.network_nodes.map
        (fun m => if m.id = "upf-001" then { m with status := "down" } else m) ∧
    windowOf (((OAMPlatform.init.fault_node_down ⟨[], ["t1"]⟩
        ⟨"upf-001", "UPF", "10.0.3.1", "active"⟩).1.kpi.collect_node_kpis ⟨[], ["t2"]⟩
        ⟨"upf-001", "UPF", "10.0.3.1", "active"⟩).1) "node_availability" "upf-001" =
      some (windowAppend ((lookup1 ([] : List (String × List Sample)) "upf-001").getD [])
        ⟨"t2", 100.0⟩) :=
  independent_node_copies OAMPlatform.init ⟨[], ["t1"]⟩ ⟨[], ["t2"]⟩
    ⟨"upf-001", "UPF", "10.0.3.1", "active"⟩ ⟨"upf-001", "UPF", "10.0.3.1", "active"⟩
    (by decide) rfl [] rfl

/-! ## C6: scenario execution emits events in spec order -/

theorem map_ty_set (l : List Node) (tid stat : String) :
    (l.map (fun n => if n.id = tid then { n with status := stat } else n)).map Node.ty =
      l.map Node.ty := by
  rw [List.map_map]
  induction l with
  | nil => rfl
  | cons n rest ih =>
      rw [List.map_cons, List.map_cons, ih]
      congr 1
      dsimp only [Function.comp]
      split <;> rfl

theorem generate_event_nodes_ty (st : EvState) (w : World) (ty : EventType) (tn : Node) :
    ((st.generate_event w ty tn).1.network_nodes).map Node.ty =
      st.network_nodes.map Node.ty := by
  cases ty <;> simp only [EvState.generate_event] <;>
    first
      | rfl
      | apply map_ty_set
      | (split
         · apply map_ty_set
         · rfl)

theorem rand_rng_tail (w : World) : (w.rand.2).rng = w.rng.tail := by
  obtain ⟨r, c⟩ := w
  cases r <;> rfl

theorem rand_val_nil (w : World) (h : w.rng = []) : w.rand.1 = 0 := by
  obtain ⟨r, c⟩ := w
  cases r with
  | nil => rfl
  | cons x xs => cases h

theorem now_rng (w : World) : (w.now.2).rng = w.rng := by
  obtain ⟨r, c⟩ := w
  cases c <;> rfl

theorem uniform_rng_tail (w : World) (a b : ℚ) : ((w.uniform a b).2).rng = w.rng.tail :=
  rand_rng_tail w

theorem randint_rng_tail (w : World) (a b : ℤ) : ((w.randint a b).2).rng = w.rng.tail :=
  rand_rng_tail w

theorem choice_rng_tail {α : Type} (w : World) (l : List α) (d : α) :
    ((w.choice l d).2).rng = w.rng.tail :=
  rand_rng_tail w

theorem generate_event_rng_nil (st : EvState) (w : World) (ty : EventType) (tn : Node)
    (h : w.rng = []) : ((st.generate_event w ty tn).2.1).rng = [] := by
  cases ty <;>
    simp only [EvState.generate_event] <;>
    simp [choice_rng_tail, uniform_rng_tail, randint_rng_tail, rand_rng_tail, now_rng, h]

theorem scenario_order_emit (st : EvState) (w w1 : World) (tn : Node)
    (d : EventSpec) (rest : List EventSpec)
    (hw1 : w.rng = [] → w1.rng = [])
    (ih : ∀ (st' : EvState) (w' : World), ∃ new,
      (st'.run_scenario_events w' rest).1.events = st'.events ++ new ∧
      List.Sublist (new.map Event.ty) (rest.map (fun d' => d'.ty.name)) ∧
      (w'.rng = [] → (∀ d' ∈ rest, 0 ≤ d'.probability) →
        (∀ d' ∈ rest, d'.target_type = "ALL" ∨
          d'.target_type ∈ st'.network_nodes.map Node.ty) →
        st'.network_nodes ≠ [] →
        new.map Event.ty = rest.map (fun d' => d'.ty.name))) :
    ∃ new,
      ((st.generate_event w1 d.ty tn).1.run_scenario_events
          ((st.generate_event w1 d.ty tn).2.1.uniform 1 5).2 rest).1.events
        = st.events ++ new ∧
      List.Sublist (new.map Event.ty) ((d :: rest).map (fun d' => d'.ty.name)) ∧
      (w.rng = [] → (∀ d' ∈ d :: rest, 0 ≤ d'.probability) →
        (∀ d' ∈ d :: rest, d'.target_type = "ALL" ∨
          d'.target_type ∈ st.network_nodes.map Node.ty) →
        st.network_nodes ≠ [] →
        new.map Event.ty = (d :: rest).map (fun d' => d'.ty.name)) := by
  obtain ⟨hgev, hgid, hgty⟩ := generate_event_parts st w1 d.ty tn
  obtain ⟨new, he, hsub, hforced⟩ :=
    ih (st.generate_event w1 d.ty tn).1 ((st.generate_event w1 d.ty tn).2.1.uniform 1 5).2
  refine ⟨(st.generate_event w1 d.ty tn).2.2 :: new, ?_, ?_, ?_⟩
  · rw [he, hgev, List.append_assoc, List.singleton_append]
  · rw [List.map_cons, List.map_cons, hgty]
    exact List.Sublist.cons₂ _ hsub
  · intro hrng hp ht hne
    rw [List.map_cons, List.map_cons, hgty]
    congr 1
    apply hforced
    · have hg : ((st.generate_event w1 d.ty tn).2.1).rng = [] :=
        generate_event_rng_nil st w1 d.ty tn (hw1 hrng)
      rw [uniform_rng_tail, hg]
      rfl
    · exact fun d' hd' => hp d' (List.mem_cons_of_mem d hd')
    · intro d' hd'
      rcases ht d' (List.mem_cons_of_mem d hd') with h1 | h1
      · exact Or.inl h1
      · right
        rw [generate_event_nodes_ty]
        exact h1
    · intro hgn
      apply hne
      have hmap := generate_event_nodes_ty st w1 d.ty tn
      rw [hgn] at hmap
      exact List.map_eq_nil_iff.1 hmap.symm

/-- C6.  Scenario execution iterates the spec list in order; a failed
probability trial or an empty resolved target set emits nothing and moves
on (so the emitted event types are always an in-order sublist of the spec
types), and with a forced random source on which every trial succeeds
(modelled by the all-zero stream `rng = []`) and resolvable targets, the
emitted event types equal the spec types in exactly that order. -/
theorem scenario_order (st : EvState) (w : World) (specs : List EventSpec) :
    ∃ new : List Event,
      (st.run_scenario_events w specs).1.events = st.events ++ new ∧
      List.Sublist (new.map Event.ty) (specs.map (fun d => d.ty.name)) ∧
      (w.rng = [] → (∀ d ∈ specs, 0 ≤ d.probability) →
        (∀ d ∈ specs, d.target_type = "ALL" ∨
          d.target_type ∈ st.network_nodes.map Node.ty) →
        st.network_nodes ≠ [] →
        new.map Event.ty = specs.map (fun d => d.ty.name)) := by
  induction specs generalizing st w with
  | nil =>
      refine ⟨[], ?_, List.nil_sublist _, fun _ _ _ _ => rfl⟩
      rw [EvState.run_scenario_events, List.append_nil]
  | cons d rest ih =>
      rw [EvState.run_scenario_events]
      dsimp only
      by_cases hskip : d.probability < w.rand.1
      · rw [if_pos hskip]
        obtain ⟨new, he, hsub, -⟩ := ih st w.rand.2
        refine ⟨new, he, hsub.cons _, ?_⟩
        intro hrng hp _ _
        exfalso
        rw [rand_val_nil w hrng] at hskip
        exact absurd hskip (not_lt.2 (hp d (List.mem_cons_self d rest)))
      · rw [if_neg hskip]
        by_cases hall : d.target_type = "ALL"
        · rw [if_pos hall]
          by_cases hemp : st.network_nodes = []
          · rw [if_pos hemp]
            obtain ⟨new, he, hsub, -⟩ := ih st w.rand.2
            refine ⟨new, he, hsub.cons _, ?_⟩
            intro _ _ _ hne
            exact absurd hemp hne
          · rw [if_neg hemp]
            exact scenario_order_emit st w _ _ d rest
              (fun h => by simp [choice_rng_tail, rand_rng_tail, h]) ih
        · rw [if_neg hall]
          by_cases hemp : st.network_nodes.filter (fun n => n.ty = d.target_type) = []
          · rw [if_pos hemp]
            obtain ⟨new, he, hsub, -⟩ := ih st w.rand.2
            refine ⟨new, he, hsub.cons _, ?_⟩
            intro _ _ ht _
            rcases ht d (List.mem_cons_self d rest) with h1 | h1
            · exact absurd h1 hall
            · rcases List.mem_map.1 h1 with ⟨n, hn, hty⟩
              exact absurd hemp
                (List.ne_nil_of_mem (List.mem_filter.2 ⟨hn, by simp [hty]⟩))
          · rw [if_neg hemp]
            exact scenario_order_emit st w _ _ d rest
              (fun h => by simp [choice_rng_tail, rand_rng_tail, h]) ih

/-- Witness for C6: the AMF-failover spec order, with the forced random
source, emits NODE_FAILURE, FAILOVER, RECOVERY in exactly that order. -/
theorem scenario_order_witness :
    ∃ new : List Event,
      (EvState.init.run_scenario_events ⟨[], []⟩
        [⟨.NODE_FAILURE, "AMF", 1.0⟩, ⟨.FAILOVER, "AMF", 0.9⟩,
         ⟨.RECOVERY, "AMF", 0.8⟩]).1.events = EvState.init.events ++ new ∧
      new.map Event.ty = ["NODE_FAILURE", "FAILOVER", "RECOVERY"] := by
  obtain ⟨new, he, -, hforced⟩ := scenario_order EvState.init ⟨[], []⟩
    [⟨.NODE_FAILURE, "AMF", 1.0⟩, ⟨.FAILOVER, "AMF", 0.9⟩, ⟨.RECOVERY, "AMF", 0.8⟩]
  refine ⟨new, he, ?_⟩
  rw [hforced rfl (by decide) (by decide) (by decide)]
  rfl

/-! ## C7: load-test argument validation and event pair -/

theorem load_loop_events :
    ∀ (ns : List Node) (st : EvState) (w : World),
      ∃ extra, (EvState.load_loop ns st w).1.events = st.events ++ extra := by
  intro ns
  induction ns with
  | nil =>
      intro st w
      exact ⟨[], (List.append_nil _).symm⟩
  | cons n rest ih =>
      intro st w
      rw [EvState.load_loop]
      dsimp only
      split
      · obtain ⟨extra, he⟩ :=
          ih (st.generate_event w.rand.2 .RESOURCE_EXHAUSTION n).1
            (st.generate_event w.rand.2 .RESOURCE_EXHAUSTION n).2.1
        obtain ⟨hgev, -, -⟩ := generate_event_parts st w.rand.2 .RESOURCE_EXHAUSTION n
        refine ⟨(st.generate_event w.rand.2 .RESOURCE_EXHAUSTION n).2.2 :: extra, ?_⟩
        rw [he, hgev, List.append_assoc, List.singleton_append]
      · exact ih st w.rand.2

theorem run_load_test_body_spec (st : EvState) (w : World) (nt : String) (d : ℚ)
    (i : String) (tns : List Node) (c m : ℚ) (k : ℤ) :
    (st.run_load_test_body w nt d i tns c m k).1 = true ∧
    (st.run_load_test_body w nt d i tns c m k).2.2.2 = [min d 5] ∧
    ∃ (e1 e2 : Event) (mid : List Event),
      (st.run_load_test_body w nt d i tns c m k).2.1.events =
        st.events ++ [e1] ++ mid ++ [e2] ∧
      e1.ty = "LOAD_TEST" ∧ e1.id = st.events.length + 1 ∧
      e2.ty = "LOAD_TEST_COMPLETED" ∧
      lookup1 e2.details "original_test_id" = some (Val.i (e1.id : ℤ)) := by
  rw [EvState.run_load_test_body]
  dsimp only
  refine ⟨rfl, rfl, ?_⟩
  have hr : ∃ mid,
      (if i = "high" then
        EvState.load_loop tns
          { st with events := st.events ++
              [{ id := st.events.length + 1, ty := "LOAD_TEST", target_node := none,
                 target_type := nt, timestamp := w.now.1,
                 details := [("duration_seconds", Val.q d), ("intensity", Val.s i),
                             ("cpu_load", Val.q c), ("memory_load", Val.q m),
                             ("connection_load", Val.i k)],
                 target_nodes := tns.map (fun n => n.id) }] } w.now.2
       else
        ({ st with events := st.events ++
              [{ id := st.events.length + 1, ty := "LOAD_TEST", target_node := none,
                 target_type := nt, timestamp := w.now.1,
                 details := [("duration_seconds", Val.q d), ("intensity", Val.s i),
                             ("cpu_load", Val.q c), ("memory_load", Val.q m),
                             ("connection_load", Val.i k)],
                 target_nodes := tns.map (fun n => n.id) }] }, w.now.2)).1.events =
      (st.events ++
        [{ id := st.events.length + 1, ty := "LOAD_TEST", target_node := none,
           target_type := nt, timestamp := w.now.1,
           details := [("duration_seconds", Val.q d), ("intensity", Val.s i),
                       ("cpu_load", Val.q c), ("memory_load", Val.q m),
                       ("connection_load", Val.i k)],
           target_nodes := tns.map (fun n => n.id) }]) ++ mid := by
    split
    · exact load_loop_events tns _ _
    · exact ⟨[], (List.append_nil _).symm⟩
  obtain ⟨mid, hmid⟩ := hr
  exact ⟨_, _, mid, by rw [hmid], by rfl, by rfl, by rfl, by rfl⟩

/-- C7.  `run_load_test` returns false with no side effects when no node of
the requested type exists or when the intensity is invalid; on a valid
call it returns true, records a single pause of `min(duration_seconds, 5)`,
and appends a start event followed (possibly after stress events) by a
completion event whose details reference the start event's id. -/
theorem run_load_test_spec :
    (∀ (st : EvState) (w : World) (nt : String) (d : ℚ) (i : String),
      st.network_nodes.filter (fun n => n.ty = nt) = [] →
      st.run_load_test w nt d i = (false, st, w, [])) ∧
    (∀ (st : EvState) (w : World) (nt : String) (d : ℚ) (i : String),
      i ≠ "low" → i ≠ "medium" → i ≠ "high" →
      st.run_load_test w nt d i = (false, st, w, [])) ∧
    (∀ (st : EvState) (w : World) (nt : String) (d : ℚ) (i : String),
      st.network_nodes.filter (fun n => n.ty = nt) ≠ [] →
      (i = "low" ∨ i = "medium" ∨ i = "high") →
      (st.run_load_test w nt d i).1 = true ∧
      (st.run_load_test w nt d i).2.2.2 = [min d 5] ∧
      ∃ (e1 e2 : Event) (mid : List Event),
        (st.run_load_test w nt d i).2.1.events = st.events ++ [e1] ++ mid ++ [e2] ∧
        e1.ty = "LOAD_TEST" ∧ e1.id = st.events.length + 1 ∧
        e2.ty = "LOAD_TEST_COMPLETED" ∧
        lookup1 e2.details "original_test_id" = some (Val.i (e1.id : ℤ))) := by
  refine ⟨?_, ?_, ?_⟩
  · intro st w nt d i h
    rw [EvState.run_load_test]
    dsimp only
    rw [if_pos h]
  · intro st w nt d i hl hm hh
    rw [EvState.run_load_test]
    dsimp only
    split
    · rfl
    · simp only [if_neg hl, if_neg hm, if_neg hh]
  · intro st w nt d i hne hi
    rw [EvState.run_load_test]
    dsimp only
    rw [if_neg hne]
    rcases hi with rfl | rfl | rfl <;>
      simp only [reduceIte] <;>
      exact run_load_test_body_spec st _ nt d _ _ _ _ _

/-- Witness for C7: a missing node type, an invalid intensity, and a valid
high-intensity call. -/
theorem run_load_test_spec_witness :
    (EvState.mk false [] []).run_load_test ⟨[], []⟩ "UPF" 120 "high" =
      (false, EvState.mk false [] [], ⟨[], []⟩, []) ∧
    EvState.init.run_load_test ⟨[], []⟩ "UPF" 120 "extreme" =
      (false, EvState.init, ⟨[], []⟩, []) ∧
    (EvState.init.run_load_test ⟨[], []⟩ "UPF" 120 "high").1 = true ∧
    (EvState.init.run_load_test ⟨[], []⟩ "UPF" 120 "high").2.2.2 = [min 120 5] :=
  ⟨run_load_test_spec.1 (EvState.mk false [] []) ⟨[], []⟩ "UPF" 120 "high" rfl,
   run_load_test_spec.2.1 EvState.init ⟨[], []⟩ "UPF" 120 "extreme"
     (by decide) (by decide) (by decide),
   (run_load_test_spec.2.2 EvState.init ⟨[], []⟩ "UPF" 120 "high"
     (by decide) (Or.inr (Or.inr rfl))).1,
   (run_load_test_spec.2.2 EvState.init ⟨[], []⟩ "UPF" 120 "high"
     (by decide) (Or.inr (Or.inr rfl))).2.1⟩

/-- Witness for C3: the availability branch at the spec's concrete numbers. -/
theorem threshold_classification_witness :
    classify_severity "availability" 99.9 99.5 99.4 = "CRITICAL" ∧
    classify_severity "resource" 80 90 82 = "WARNING" :=
  ⟨(threshold_classification.1 "availability" 99.9 99.5 99.4 (Or.inl rfl)).1.mpr
      (by norm_num),
   (threshold_classification.2.1 "resource" 80 90 82 (Or.inr rfl)).2.1.mpr
      (by norm_num)⟩

end OAM5G
